import Mathlib

/-!
Verification development for MExplorer, an interactive terminal file explorer
written in C (src/main.c, src/mexplorer.c, src/mexplorer.h).

The C code is shallowly embedded: C strings become lists of bytes (Nat),
absolute paths become lists of path components (each a byte string),
machine integers used for sizes, timestamps and cursor arithmetic become Int,
and the filesystem / terminal environment is passed in explicitly (directory
listings, lstat outcomes, the process working directory, allocation success).
Every definition mirrors a specific function of src/mexplorer.c or src/main.c,
named after it where Lean allows.
-/

namespace MExplorer

/-- Bytes of a C string (unsigned char values, without the terminating NUL). -/
abbrev CStr := List Nat

/-- An absolute path, as the list of its components (each a byte string).
Equality of component lists models strcmp-equality of the full path strings. -/
abbrev AbsPath := List CStr

/-- File type encoded in st_mode, as tested by the S_ISDIR / S_ISREG / ...
macros in mexplorer.c (print_mode, include_entry). -/
inductive file_kind
  | dir
  | reg
  | lnk
  | chr
  | blk
  | fifo
  | sock
  | other
deriving DecidableEq

/-- The fields of struct stat that mexplorer.c reads for filtering and
sorting: the file kind from st_mode, st_size (off_t) and st_mtime (time_t). -/
structure stat_t where
  kind : file_kind
  st_size : Int
  st_mtime : Int
deriving DecidableEq

/-- Zero-initialized struct stat, mirroring the file_entry_t fe = \x7b0\x7d
initialization in read_dir (mode 0 is neither a directory nor a regular file). -/
def stat_zero : stat_t := { kind := file_kind.other, st_size := 0, st_mtime := 0 }

/-- file_entry_t from mexplorer.h: basename, full path, stat info, and the
st_valid flag recording whether lstat succeeded.  The name-aliases-into-path
memory optimization of the C code is modelled as two independent fields,
with read_dir keeping them consistent. -/
structure file_entry_t where
  name : CStr
  path : AbsPath
  st : stat_t
  st_valid : Bool
deriving DecidableEq

/-- sort_mode_t from mexplorer.h. -/
inductive sort_mode_t
  | SORT_NAME
  | SORT_SIZE
  | SORT_TIME
deriving DecidableEq

/-- explorer_flags_t from mexplorer.h. -/
structure explorer_flags_t where
  show_all : Bool
  recursive : Bool
  long_format : Bool
  dirs_only : Bool
  files_only : Bool
  human_readable : Bool
  sort_mode : sort_mode_t
  interactive : Bool
deriving DecidableEq

/-- The flag record main.c starts from: explorer_flags_t flags = \x7b0\x7d with
sort_mode = SORT_NAME and interactive = 1. -/
def default_flags : explorer_flags_t :=
  { show_all := false
    recursive := false
    long_format := false
    dirs_only := false
    files_only := false
    human_readable := false
    sort_mode := sort_mode_t.SORT_NAME
    interactive := true }

/-- The startup conflict check of main.c (lines 72-75): -d together with -f
is rejected before any interactive state is entered. -/
def main_flags_conflict (f : explorer_flags_t) : Bool :=
  f.dirs_only && f.files_only

/-- C strcmp on byte strings, with result normalized to -1 / 0 / 1 (the code
only ever uses the sign of strcmp).  A strict prefix compares less because
the terminating NUL byte is smaller than every other byte. -/
def strcmp : CStr → CStr → Int
  | [], [] => 0
  | [], _ :: _ => -1
  | _ :: _, [] => 1
  | a :: xs, b :: ys =>
    if a < b then -1 else if b < a then 1 else strcmp xs ys

/-- cmp_name from mexplorer.c (line 80): byte-wise name comparison. -/
def cmp_name (x y : file_entry_t) : Int :=
  strcmp x.name y.name

/-- cmp_size from mexplorer.c (lines 84-93): when both entries have valid
stat info, equal sizes fall back to name order and otherwise the bigger
file sorts first; when either entry lacks valid stat info, name order. -/
def cmp_size (x y : file_entry_t) : Int :=
  if x.st_valid && y.st_valid then
    if x.st.st_size = y.st.st_size then strcmp x.name y.name
    else if x.st.st_size < y.st.st_size then 1 else -1
  else cmp_name x y

/-- cmp_time from mexplorer.c (lines 95-103): when both entries have valid
stat info, equal mtimes fall back to name order and otherwise the newer
file sorts first; when either entry lacks valid stat info, name order. -/
def cmp_time (x y : file_entry_t) : Int :=
  if x.st_valid && y.st_valid then
    if x.st.st_mtime = y.st.st_mtime then strcmp x.name y.name
    else if x.st.st_mtime < y.st.st_mtime then 1 else -1
  else cmp_name x y

/-- Insert one entry into a list already ordered by the comparator. -/
def insert_by (cmp : file_entry_t → file_entry_t → Int) (x : file_entry_t) :
    List file_entry_t → List file_entry_t
  | [] => [x]
  | y :: ys => if cmp x y ≤ 0 then x :: y :: ys else y :: insert_by cmp x ys

/-- Comparator-based sorting, modelling the qsort calls of load_directory and
traverse_directory.  For the comparators above, which are total with a
deterministic name tie-break, the sorted sequence qsort produces is the one
insertion sort produces. -/
def sort_by (cmp : file_entry_t → file_entry_t → Int)
    (l : List file_entry_t) : List file_entry_t :=
  l.foldr (insert_by cmp) []

/-- The e->name[0] == '.' test of include_entry ('.' is byte 46); an empty
name yields the terminating NUL, which is not '.'. -/
def is_hidden_name (name : CStr) : Bool :=
  match name with
  | c :: _ => c == 46
  | [] => false

/-- include_entry from mexplorer.c (lines 252-264): hidden-name filter, then
dirs-only filter, then files-only filter. -/
def include_entry (e : file_entry_t) (f : explorer_flags_t) : Bool :=
  if !f.show_all && is_hidden_name e.name then false
  else if f.dirs_only && !(e.st_valid && e.st.kind == file_kind.dir) then false
  else if f.files_only && !(e.st_valid && e.st.kind == file_kind.reg) then false
  else true

/-- One readdir result: the child's name and the outcome of the lstat call
read_dir performs on it (none when lstat failed). -/
structure dirent_t where
  d_name : CStr
  lstat_result : Option stat_t
deriving DecidableEq

/-- The file_entry_t that read_dir builds for one directory child:
path = dirpath "/" name (snprintf "%s/%s"), st filled by lstat on success
and left zero-initialized on failure, st_valid = whether lstat succeeded. -/
def mk_entry (dirpath : AbsPath) (d : dirent_t) : file_entry_t :=
  { name := d.d_name
    path := dirpath ++ [d.d_name]
    st := match d.lstat_result with
          | some s => s
          | none => stat_zero
    st_valid := d.lstat_result.isSome }

/-- read_dir from mexplorer.c (lines 412-457), over an explicit directory
listing (the sequence of readdir results): skips the "." and ".."
pseudo-entries, builds each entry, and keeps it iff include_entry accepts. -/
def read_dir (dirpath : AbsPath) (listing : List dirent_t)
    (f : explorer_flags_t) : List file_entry_t :=
  listing.filterMap fun d =>
    if d.d_name = [46] ∨ d.d_name = [46, 46] then none
    else if include_entry (mk_entry dirpath d) f then some (mk_entry dirpath d)
    else none

/-- The sort dispatch of load_directory (lines 466-472). -/
def sort_entries (m : sort_mode_t) (l : List file_entry_t) : List file_entry_t :=
  match m with
  | sort_mode_t.SORT_NAME => sort_by cmp_name l
  | sort_mode_t.SORT_SIZE => sort_by cmp_size l
  | sort_mode_t.SORT_TIME => sort_by cmp_time l

/-- interactive_state_t from mexplorer.c (lines 36-45): the session state
mutated only by the event loop. -/
structure interactive_state_t where
  current_path : AbsPath
  entries : List file_entry_t
  history : List AbsPath
  cursor_pos : Int
  scroll_offset : Int
  needs_refresh : Bool
  terminal_resized : Bool
  flags : explorer_flags_t
deriving DecidableEq

/-- load_directory from mexplorer.c (lines 460-477): replaces the snapshot by
the freshly read and sorted listing of the current path, and resets the
cursor and scroll offset to 0.  The listing argument stands for the readdir
results the filesystem returns for state.current_path at this moment. -/
def load_directory (listing : List dirent_t)
    (st : interactive_state_t) : interactive_state_t :=
  { st with
    entries := sort_entries st.flags.sort_mode
                 (read_dir st.current_path listing st.flags)
    cursor_pos := 0
    scroll_offset := 0 }

/-- history_push from mexplorer.c (lines 171-190): no-op when the stack is
non-empty and its top equals the path, otherwise append.  The top of the
stack (paths[size-1]) is the last element of the list.  The realloc-failure
early return is modelled as allocation always succeeding. -/
def history_push (h : List AbsPath) (p : AbsPath) : List AbsPath :=
  match h.getLast? with
  | some top => if top = p then h else h ++ [p]
  | none => h ++ [p]

/-- history_pop from mexplorer.c (lines 193-198): returns NULL on an empty
stack, otherwise removes and returns the top (paths[--size]). -/
def history_pop (h : List AbsPath) : Option AbsPath × List AbsPath :=
  match h.getLast? with
  | some top => (some top, h.dropLast)
  | none => (none, h)

/-- history_is_empty from mexplorer.c (lines 201-203). -/
def history_is_empty (h : List AbsPath) : Bool :=
  h.isEmpty

/-- The case 'b' branch of interactive_explorer (lines 727-747).  With
non-empty history: pop, and adopt the popped path iff it differs from the
current path.  With empty history the code calls realpath("..", NULL),
which resolves the literal string ".." against the PROCESS WORKING
DIRECTORY (the process never chdirs), so the fallback target is the parent
of cwd, adopted iff it differs from the current path. -/
def back_command (cwd : AbsPath) (st : interactive_state_t) : interactive_state_t :=
  if history_is_empty st.history = false then
    match history_pop st.history with
    | (some prev, rest) =>
      if prev ≠ st.current_path then
        { st with history := rest, current_path := prev, needs_refresh := true }
      else
        { st with history := rest }
    | (none, rest) => { st with history := rest }
  else
    let parent := cwd.dropLast
    if parent ≠ st.current_path then
      { st with current_path := parent, needs_refresh := true }
    else st

/-- The cursor-down mutation of interactive_explorer (case 'j', line 686):
cursor_pos++ guarded by cursor_pos < (int)entries.used - 1.  Arrow keys are
decoded to the same command by read_single_char_optimized. -/
def nav_down (cursor : Int) (len : Nat) : Int :=
  if cursor < (len : Int) - 1 then cursor + 1 else cursor

/-- The cursor-up mutation of interactive_explorer (case 'k', line 690):
cursor_pos-- guarded by cursor_pos > 0. -/
def nav_up (cursor : Int) : Int :=
  if 0 < cursor then cursor - 1 else cursor

/-- The available-line budget of display_interface (lines 509-513):
terminal height minus 6 reserved lines, clamped to a minimum of 1. -/
def available_lines (term_height : Int) : Int :=
  if term_height - 6 < 1 then 1 else term_height - 6

/-- The scroll-offset recomputation of display_interface (lines 516-520). -/
def adjust_scroll (cursor scroll avail : Int) : Int :=
  if cursor < scroll then cursor
  else if scroll + avail ≤ cursor then cursor - avail + 1
  else scroll

/-- The slice of entry indices display_interface draws (lines 523-527):
start = scroll offset, end = min(start + available lines, entry count). -/
def draw_range (scroll avail : Int) (len : Nat) : Int × Int :=
  (scroll, min (scroll + avail) (len : Int))

/-- The (mode + 1) % 3 sort-mode cycling of case 's' (line 760). -/
def next_sort_mode : sort_mode_t → sort_mode_t
  | sort_mode_t.SORT_NAME => sort_mode_t.SORT_SIZE
  | sort_mode_t.SORT_SIZE => sort_mode_t.SORT_TIME
  | sort_mode_t.SORT_TIME => sort_mode_t.SORT_NAME

/-- The settings-toggle keys of the interactive_explorer dispatch. -/
inductive toggle_key
  | key_a
  | key_l
  | key_s
  | key_H
  | key_d
  | key_f
deriving DecidableEq

/-- The flag mutations of the toggle cases of interactive_explorer
(lines 750-778): case 'd' flips dirs_only and, when it became set, clears
files_only; case 'f' symmetrically. -/
def apply_toggle (f : explorer_flags_t) : toggle_key → explorer_flags_t
  | toggle_key.key_a => { f with show_all := !f.show_all }
  | toggle_key.key_l => { f with long_format := !f.long_format }
  | toggle_key.key_s => { f with sort_mode := next_sort_mode f.sort_mode }
  | toggle_key.key_H => { f with human_readable := !f.human_readable }
  | toggle_key.key_d =>
    let f2 := { f with dirs_only := !f.dirs_only }
    if f2.dirs_only then { f2 with files_only := false } else f2
  | toggle_key.key_f =>
    let f2 := { f with files_only := !f.files_only }
    if f2.files_only then { f2 with dirs_only := false } else f2

/-- Terminal-resource events emitted by the session: raw mode on/off
(setup_terminal(1) / setup_terminal(0)) and alternate screen buffer
on/off (the ESC[?1049h / ESC[?1049l writes). -/
inductive term_event
  | raw_on
  | raw_off
  | alt_on
  | alt_off
deriving DecidableEq

/-- The terminal-resource trace of one interactive_explorer run, by exit
path.  When realpath on the start path fails (line 615) the function
returns before acquiring anything.  Otherwise it enables raw mode
(line 632) and enters the alternate screen (line 635); if every allocation
succeeds, the loop ends only via the quit key and
restore_terminal_and_exit (lines 584-608) leaves the alternate screen and
restores the terminal; if a realloc in list_push fails (lines 142-145),
the process exits immediately via exit(EXIT_FAILURE) with no cleanup. -/
def session_term_trace (start_path_resolves : Bool) (alloc_ok : Bool) :
    List term_event :=
  if start_path_resolves = false then []
  else
    [term_event.raw_on, term_event.alt_on] ++
      (if alloc_ok then [term_event.alt_off, term_event.raw_off] else [])

/-- Whether raw mode is still active after a trace of terminal events. -/
def raw_mode_active (evs : List term_event) : Bool :=
  evs.foldl
    (fun s e =>
      match e with
      | term_event.raw_on => true
      | term_event.raw_off => false
      | _ => s)
    false

/-- Whether the alternate screen buffer is still active after a trace. -/
def alt_screen_active (evs : List term_event) : Bool :=
  evs.foldl
    (fun s e =>
      match e with
      | term_event.alt_on => true
      | term_event.alt_off => false
      | _ => s)
    false

/-- No two consecutive elements of the history stack are equal. -/
def no_adjacent_dup (h : List AbsPath) : Prop :=
  List.Chain' (fun a b => a ≠ b) h

/-- A regular file entry with a one-byte name, for concrete scenarios. -/
def mk_file (b : Nat) (sz : Int) : file_entry_t :=
  { name := [b]
    path := [[b]]
    st := { kind := file_kind.reg, st_size := sz, st_mtime := 0 }
    st_valid := true }

/-- The 500-byte file named "b" of the size-sort scenario. -/
def entry_b500 : file_entry_t := mk_file 98 500

/-- The 10-byte file named "a" of the size-sort scenario. -/
def entry_a10 : file_entry_t := mk_file 97 10

/-- The 10-byte file named "c" of the size-sort scenario. -/
def entry_c10 : file_entry_t := mk_file 99 10

/-- The absolute path /tmp/d/sub, as component byte strings. -/
def tmp_d_sub : AbsPath := [[116, 109, 112], [100], [115, 117, 98]]

/-- The absolute path /home/user, as component byte strings. -/
def home_user : AbsPath := [[104, 111, 109, 101], [117, 115, 101, 114]]

/-- A session state at /tmp/d/sub with an empty navigation history. -/
def state_at_tmp_d_sub : interactive_state_t :=
  { current_path := tmp_d_sub
    entries := []
    history := []
    cursor_pos := 0
    scroll_offset := 0
    needs_refresh := false
    terminal_resized := false
    flags := default_flags }

/-- A session state whose snapshot holds five files with the cursor on the
last one (index 4). -/
def state_cursor4_of5 : interactive_state_t :=
  { current_path := [[100]]
    entries := [mk_file 97 1, mk_file 98 1, mk_file 99 1, mk_file 100 1,
                mk_file 101 1]
    history := []
    cursor_pos := 4
    scroll_offset := 0
    needs_refresh := true
    terminal_resized := false
    flags := default_flags }

/-- A directory listing of only two regular files, modelling the directory
after three of the five files were deleted externally. -/
def shrunk_listing : List dirent_t :=
  [{ d_name := [97],
     lstat_result := some { kind := file_kind.reg, st_size := 1, st_mtime := 0 } },
   { d_name := [98],
     lstat_result := some { kind := file_kind.reg, st_size := 2, st_mtime := 0 } }]

/-- The strict-total-order property of the three comparators on two entries
with valid metadata: differing keys order in exactly one direction (Size and
Time descending by their key), and equal keys resolve by byte-wise name
comparison. -/
def strict_total_order_spec (x y : file_entry_t) : Prop :=
  (x.name ≠ y.name →
      (cmp_name x y < 0 ∧ 0 < cmp_name y x) ∨
        (0 < cmp_name x y ∧ cmp_name y x < 0)) ∧
  (x.st.st_size ≠ y.st.st_size →
      (cmp_size x y < 0 ↔ y.st.st_size < x.st.st_size) ∧
      ((cmp_size x y < 0 ∧ 0 < cmp_size y x) ∨
        (0 < cmp_size x y ∧ cmp_size y x < 0))) ∧
  (x.st.st_size = y.st.st_size → cmp_size x y = strcmp x.name y.name) ∧
  (x.st.st_mtime ≠ y.st.st_mtime →
      (cmp_time x y < 0 ↔ y.st.st_mtime < x.st.st_mtime) ∧
      ((cmp_time x y < 0 ∧ 0 < cmp_time y x) ∨
        (0 < cmp_time x y ∧ cmp_time y x < 0))) ∧
  (x.st.st_mtime = y.st.st_mtime → cmp_time x y = strcmp x.name y.name)

/-- The inclusion condition of include_entry as the specification states it,
together with the behavior on entries whose metadata query failed: such
entries are unaffected by filter (a) but fail the dirs-only and files-only
filters. -/
def include_entry_spec (e : file_entry_t) (f : explorer_flags_t) : Prop :=
  (include_entry e f = true ↔
     ((f.show_all = true ∨ is_hidden_name e.name = false) ∧
      (f.dirs_only = false ∨ (e.st_valid = true ∧ e.st.kind = file_kind.dir)) ∧
      (f.files_only = false ∨ (e.st_valid = true ∧ e.st.kind = file_kind.reg)))) ∧
  (e.st_valid = false →
     (f.dirs_only = true → include_entry e f = false) ∧
     (f.files_only = true → include_entry e f = false))

theorem strcmp_swap (a b : CStr) : strcmp b a = - strcmp a b := by
  induction a generalizing b with
  | nil => cases b <;> simp [strcmp]
  | cons x xs ih =>
    cases b with
    | nil => simp [strcmp]
    | cons y ys =>
      simp only [strcmp]
      rcases lt_trichotomy x y with h | h | h
      · have h2 : ¬ y < x := by omega
        simp [h, h2]
      · subst h
        simp [ih]
      · have h2 : ¬ x < y := by omega
        simp [h, h2]

theorem strcmp_eq_zero_iff (a b : CStr) : strcmp a b = 0 ↔ a = b := by
  induction a generalizing b with
  | nil => cases b <;> simp [strcmp]
  | cons x xs ih =>
    cases b with
    | nil => simp [strcmp]
    | cons y ys =>
      simp only [strcmp]
      rcases lt_trichotomy x y with h | h | h
      · have h2 : x ≠ y := by omega
        simp [h, h2]
      · subst h
        simp [ih]
      · have h1 : ¬ x < y := by omega
        have h2 : x ≠ y := by omega
        simp [h, h1, h2]

theorem strcmp_trichotomy_ne (a b : CStr) (h : a ≠ b) :
    (strcmp a b < 0 ∧ 0 < strcmp b a) ∨ (0 < strcmp a b ∧ strcmp b a < 0) := by
  have hz : strcmp a b ≠ 0 := fun hc => h ((strcmp_eq_zero_iff a b).mp hc)
  have hs := strcmp_swap a b
  rcases lt_trichotomy (strcmp a b) 0 with hlt | he | hgt
  · exact Or.inl ⟨hlt, by omega⟩
  · exact absurd he hz
  · exact Or.inr ⟨hgt, by omega⟩

theorem apply_toggle_preserves_excl (f : explorer_flags_t) (k : toggle_key)
    (h : (f.dirs_only && f.files_only) = false) :
    ((apply_toggle f k).dirs_only && (apply_toggle f k).files_only) = false := by
  cases k <;>
    cases hd : f.dirs_only <;>
      cases hf : f.files_only <;>
        simp_all [apply_toggle]

/-- Claim C4: starting from any settings record accepted by main's startup
check (dirs_only and files_only not both set), after any sequence of the
interactive toggle commands, dirs_only and files_only are never
simultaneously true: toggling dirs-only on clears files-only and toggling
files-only on clears dirs-only. -/
theorem c4_dirs_files_mutually_exclusive (f0 : explorer_flags_t)
    (ks : List toggle_key) (h : main_flags_conflict f0 = false) :
    ((ks.foldl apply_toggle f0).dirs_only &&
      (ks.foldl apply_toggle f0).files_only) = false := by
  unfold main_flags_conflict at h
  induction ks generalizing f0 with
  | nil => simpa using h
  | cons k ks ih =>
    rw [List.foldl_cons]
    exact ih (apply_toggle f0 k) (apply_toggle_preserves_excl f0 k h)

/-- Witness for Claim C4: startup flags with the key sequence d, f, d. -/
theorem c4_dirs_files_mutually_exclusive_witness :
    main_flags_conflict default_flags = false ∧
    (([toggle_key.key_d, toggle_key.key_f, toggle_key.key_d].foldl
        apply_toggle default_flags).dirs_only &&
      ([toggle_key.key_d, toggle_key.key_f, toggle_key.key_d].foldl
        apply_toggle default_flags).files_only) = false :=
  ⟨by decide,
   c4_dirs_files_mutually_exclusive default_flags
     [toggle_key.key_d, toggle_key.key_f, toggle_key.key_d] (by decide)⟩

/-- Claim C7: history_push is a no-op exactly when the stack is non-empty
with top equal to the pushed path and appends otherwise; history_pop removes
and returns the top or signals empty; pushing preserves the
no-consecutive-duplicates invariant; and push(p); push(p); pop() yields p
exactly once, leaving the stack empty. -/
theorem c7_history_push_pop_spec (h : List AbsPath) (p : AbsPath)
    (hnd : no_adjacent_dup h) :
    no_adjacent_dup (history_push h p) ∧
    history_pop ([] : List AbsPath) = (none, []) ∧
    history_pop (h ++ [p]) = (some p, h) ∧
    (h.getLast? = some p → history_push h p = h) ∧
    (h.getLast? ≠ some p → history_push h p = h ++ [p]) ∧
    history_pop (history_push (history_push [] p) p) = (some p, []) := by
  refine ⟨?_, rfl, ?_, ?_, ?_, ?_⟩
  · cases hl : h.getLast? with
    | none =>
      have he : h = [] := by
        cases h with
        | nil => rfl
        | cons a as => simp [List.getLast?] at hl
      subst he
      have hp : history_push [] p = [p] := rfl
      rw [hp]
      simp [no_adjacent_dup]
    | some top =>
      have hpush : history_push h p = if top = p then h else h ++ [p] := by
        unfold history_push
        rw [hl]
      rw [hpush]
      by_cases htp : top = p
      · simpa [htp] using hnd
      · rw [if_neg htp]
        unfold no_adjacent_dup at hnd ⊢
        rw [List.chain'_append]
        refine ⟨hnd, List.chain'_singleton p, ?_⟩
        intro x hx y hy
        rw [hl] at hx
        have hx2 : top = x := by simpa using hx
        have hy2 : p = y := by simpa using hy
        rw [← hx2, ← hy2]
        exact htp
  · simp [history_pop, List.getLast?_concat, List.dropLast_concat]
  · intro hl
    simp [history_push, hl]
  · intro hl
    cases hl2 : h.getLast? with
    | none => simp [history_push, hl2]
    | some top =>
      have hne : top ≠ p := fun he => hl (by rw [hl2, he])
      simp [history_push, hl2, hne]
  · simp [history_push, history_pop]

/-- Witness for Claim C7: the empty history and the path /tmp. -/
theorem c7_history_push_pop_spec_witness :
    no_adjacent_dup ([] : List AbsPath) ∧
    (no_adjacent_dup (history_push [] [[116, 109, 112]]) ∧
     history_pop ([] : List AbsPath) = (none, []) ∧
     history_pop ([] ++ [[[116, 109, 112]]]) = (some [[116, 109, 112]], []) ∧
     (List.getLast? ([] : List AbsPath) = some [[116, 109, 112]] →
       history_push [] [[116, 109, 112]] = []) ∧
     (List.getLast? ([] : List AbsPath) ≠ some [[116, 109, 112]] →
       history_push [] [[116, 109, 112]] = [] ++ [[[116, 109, 112]]]) ∧
     history_pop (history_push (history_push [] [[116, 109, 112]])
       [[116, 109, 112]]) = (some [[116, 109, 112]], [])) :=
  ⟨List.chain'_nil, c7_history_push_pop_spec [] [[116, 109, 112]] List.chain'_nil⟩

/-- Claim C10: in the Size and Time sort modes, whenever exactly one of the
two compared entries has valid metadata, the comparator ignores the valid
entry's key entirely and falls back to byte-wise name comparison. -/
theorem c10_cmp_fallback_single_valid (x y : file_entry_t)
    (hxy : (x.st_valid = true ∧ y.st_valid = false) ∨
           (x.st_valid = false ∧ y.st_valid = true)) :
    cmp_size x y = cmp_name x y ∧ cmp_time x y = cmp_name x y := by
  rcases hxy with ⟨h1, h2⟩ | ⟨h1, h2⟩ <;>
    simp [cmp_size, cmp_time, h1, h2]

/-- Witness for Claim C10: a valid 500-byte file compared against an entry
whose lstat failed. -/
theorem c10_cmp_fallback_single_valid_witness :
    ((entry_b500.st_valid = true ∧
        (mk_entry [] { d_name := [97], lstat_result := none }).st_valid = false) ∨
      (entry_b500.st_valid = false ∧
        (mk_entry [] { d_name := [97], lstat_result := none }).st_valid = true)) ∧
    (cmp_size entry_b500 (mk_entry [] { d_name := [97], lstat_result := none }) =
        cmp_name entry_b500 (mk_entry [] { d_name := [97], lstat_result := none }) ∧
      cmp_time entry_b500 (mk_entry [] { d_name := [97], lstat_result := none }) =
        cmp_name entry_b500 (mk_entry [] { d_name := [97], lstat_result := none })) :=
  ⟨Or.inl ⟨by decide, by decide⟩,
   c10_cmp_fallback_single_valid entry_b500
     (mk_entry [] { d_name := [97], lstat_result := none })
     (Or.inl ⟨by decide, by decide⟩)⟩

theorem cmp_size_valid (x y : file_entry_t)
    (hx : x.st_valid = true) (hy : y.st_valid = true) :
    cmp_size x y =
      if x.st.st_size = y.st.st_size then strcmp x.name y.name
      else if x.st.st_size < y.st.st_size then 1 else -1 := by
  simp [cmp_size, hx, hy]

theorem cmp_time_valid (x y : file_entry_t)
    (hx : x.st_valid = true) (hy : y.st_valid = true) :
    cmp_time x y =
      if x.st.st_mtime = y.st.st_mtime then strcmp x.name y.name
      else if x.st.st_mtime < y.st.st_mtime then 1 else -1 := by
  simp [cmp_time, hx, hy]

/-- Claim C5: on entries with valid metadata each comparator orders two
entries with differing keys in exactly one direction, Size and Time order
descending by their key, equal keys resolve by ascending byte-wise name
comparison, and the concrete size-sort scenario (files of sizes 500, 10, 10
named b, a, c) sorts as b, a, c. -/
theorem c5_comparators_strict_total_order (x y : file_entry_t)
    (hx : x.st_valid = true) (hy : y.st_valid = true) :
    strict_total_order_spec x y ∧
    sort_by cmp_size [entry_a10, entry_c10, entry_b500] =
      [entry_b500, entry_a10, entry_c10] := by
  constructor
  · unfold strict_total_order_spec
    refine ⟨?_, ?_, ?_, ?_, ?_⟩
    · intro hne
      simpa [cmp_name] using strcmp_trichotomy_ne x.name y.name hne
    · intro hne
      rw [cmp_size_valid x y hx hy, cmp_size_valid y x hy hx,
          if_neg hne, if_neg (Ne.symm hne)]
      rcases lt_or_gt_of_ne hne with hlt | hgt
      · rw [if_pos hlt, if_neg (by omega : ¬ y.st.st_size < x.st.st_size)]
        omega
      · rw [if_neg (by omega : ¬ x.st.st_size < y.st.st_size),
            if_pos (by omega : y.st.st_size < x.st.st_size)]
        omega
    · intro heq
      rw [cmp_size_valid x y hx hy, if_pos heq]
    · intro hne
      rw [cmp_time_valid x y hx hy, cmp_time_valid y x hy hx,
          if_neg hne, if_neg (Ne.symm hne)]
      rcases lt_or_gt_of_ne hne with hlt | hgt
      · rw [if_pos hlt, if_neg (by omega : ¬ y.st.st_mtime < x.st.st_mtime)]
        omega
      · rw [if_neg (by omega : ¬ x.st.st_mtime < y.st.st_mtime),
            if_pos (by omega : y.st.st_mtime < x.st.st_mtime)]
        omega
    · intro heq
      rw [cmp_time_valid x y hx hy, if_pos heq]
  · decide

/-- Witness for Claim C5: the two valid entries b (500 bytes) and a (10
bytes) of the size-sort scenario. -/
theorem c5_comparators_strict_total_order_witness :
    entry_b500.st_valid = true ∧ entry_a10.st_valid = true ∧
    (strict_total_order_spec entry_b500 entry_a10 ∧
     sort_by cmp_size [entry_a10, entry_c10, entry_b500] =
       [entry_b500, entry_a10, entry_c10]) :=
  ⟨by decide, by decide,
   c5_comparators_strict_total_order entry_b500 entry_a10 (by decide) (by decide)⟩

/-- Claim C6: the loader includes an enumerated child iff (show-hidden OR
name not starting with '.') AND (not dirs-only OR valid directory metadata)
AND (not files-only OR valid regular-file metadata); entries with failed
metadata queries pass filter (a) unchanged but fail filters (b) and (c); and
the '.' and '..' pseudo-entries never appear in a snapshot. -/
theorem c6_include_entry_filter_iff (e x : file_entry_t) (f : explorer_flags_t)
    (dirpath : AbsPath) (listing : List dirent_t)
    (hx : x ∈ read_dir dirpath listing f) :
    include_entry_spec e f ∧ x.name ≠ [46] ∧ x.name ≠ [46, 46] := by
  refine ⟨⟨?_, ?_⟩, ?_⟩
  · cases hsa : f.show_all <;> cases hh : is_hidden_name e.name <;>
      cases hd : f.dirs_only <;> cases hf : f.files_only <;>
        cases hv : e.st_valid <;>
          cases hkd : e.st.kind == file_kind.dir <;>
            cases hkr : e.st.kind == file_kind.reg <;>
              simp_all [include_entry]
  · intro hv
    constructor <;> intro hflag <;> simp [include_entry, hv, hflag]
  · unfold read_dir at hx
    rcases List.mem_filterMap.mp hx with ⟨d, hdmem, hd⟩
    by_cases hdot : d.d_name = [46] ∨ d.d_name = [46, 46]
    · rw [if_pos hdot] at hd
      exact absurd hd (by simp)
    · rw [if_neg hdot] at hd
      by_cases hinc : include_entry (mk_entry dirpath d) f = true
      · rw [if_pos hinc] at hd
        have hxe : mk_entry dirpath d = x := Option.some.inj hd
        push_neg at hdot
        rw [← hxe]
        exact ⟨by simpa [mk_entry] using hdot.1, by simpa [mk_entry] using hdot.2⟩
      · rw [if_neg hinc] at hd
        exact absurd hd (by simp)

/-- Witness for Claim C6: an invalid-metadata entry against the default
flags, and a snapshot read from a listing holding ".", ".." and one regular
file. -/
theorem c6_include_entry_filter_iff_witness :
    mk_entry [] { d_name := [97], lstat_result := none } ∈
      read_dir []
        [{ d_name := [46], lstat_result := none },
         { d_name := [46, 46], lstat_result := none },
         { d_name := [97], lstat_result := none }] default_flags ∧
    (include_entry_spec (mk_entry [] { d_name := [97], lstat_result := none })
        default_flags ∧
      (mk_entry [] { d_name := [97], lstat_result := none }).name ≠ [46] ∧
      (mk_entry [] { d_name := [97], lstat_result := none }).name ≠ [46, 46]) :=
  ⟨by decide,
   c6_include_entry_filter_iff
     (mk_entry [] { d_name := [97], lstat_result := none })
     (mk_entry [] { d_name := [97], lstat_result := none })
     default_flags []
     [{ d_name := [46], lstat_result := none },
      { d_name := [46, 46], lstat_result := none },
      { d_name := [97], lstat_result := none }]
     (by decide)⟩

/-- Claim C8: from an in-range state, a single Down or Up command moves the
cursor by exactly plus or minus one clamped to the range 0 to length minus
one, keeps the cursor in that range when the snapshot is non-empty, and is a
no-op (cursor stays 0) on an empty snapshot. -/
theorem c8_nav_cursor_in_range (c : Int) (len : Nat)
    (hc : 0 ≤ c) (hempty : len = 0 → c = 0) (hlt : 0 < len → c < (len : Int)) :
    (len = 0 → nav_down c len = 0 ∧ nav_up c = 0) ∧
    (0 < len →
      nav_down c len = min (c + 1) ((len : Int) - 1) ∧
      nav_up c = max (c - 1) 0 ∧
      0 ≤ nav_down c len ∧ nav_down c len < (len : Int) ∧
      0 ≤ nav_up c ∧ nav_up c < (len : Int)) := by
  unfold nav_down nav_up
  constructor
  · intro h0
    subst h0
    split_ifs <;> omega
  · intro hpos
    have hlt2 := hlt hpos
    split_ifs <;> omega

/-- Witness for Claim C8: cursor 0 on a one-entry snapshot. -/
theorem c8_nav_cursor_in_range_witness :
    (0 : Int) ≤ 0 ∧ ((1 : Nat) = 0 → (0 : Int) = 0) ∧
    (0 < (1 : Nat) → (0 : Int) < ((1 : Nat) : Int)) ∧
    (((1 : Nat) = 0 → nav_down 0 1 = 0 ∧ nav_up 0 = 0) ∧
     (0 < (1 : Nat) →
       nav_down 0 1 = min ((0 : Int) + 1) (((1 : Nat) : Int) - 1) ∧
       nav_up 0 = max ((0 : Int) - 1) 0 ∧
       0 ≤ nav_down 0 1 ∧ nav_down 0 1 < ((1 : Nat) : Int) ∧
       0 ≤ nav_up 0 ∧ nav_up 0 < ((1 : Nat) : Int))) :=
  ⟨by decide, by decide, by decide,
   c8_nav_cursor_in_range 0 1 (by decide) (by decide) (by decide)⟩

/-- Claim C9: display_interface computes an available-line budget of
terminal height minus the reserved lines clamped to a minimum of 1,
recomputes the scroll offset so the cursor falls inside the viewport, and
draws exactly the index range from the scroll offset to the minimum of
scroll offset plus budget and snapshot length; for a non-empty snapshot
with the cursor in range the cursor index lies in the drawn range. -/
theorem c9_render_cursor_visible (h c s : Int) (len : Nat)
    (_hc0 : 0 ≤ c) (hclen : c < (len : Int)) :
    1 ≤ available_lines h ∧
    available_lines h = max (h - 6) 1 ∧
    (draw_range (adjust_scroll c s (available_lines h)) (available_lines h) len).1 ≤ c ∧
    c < (draw_range (adjust_scroll c s (available_lines h)) (available_lines h) len).2 ∧
    (draw_range (adjust_scroll c s (available_lines h)) (available_lines h) len).2 =
      min (adjust_scroll c s (available_lines h) + available_lines h) (len : Int) := by
  simp only [available_lines, adjust_scroll, draw_range]
  split_ifs <;> simp <;> omega

/-- Witness for Claim C9: a 30-row terminal, cursor 0, scroll offset 0, one
entry. -/
theorem c9_render_cursor_visible_witness :
    (0 : Int) ≤ 0 ∧ (0 : Int) < ((1 : Nat) : Int) ∧
    (1 ≤ available_lines 30 ∧
     available_lines 30 = max ((30 : Int) - 6) 1 ∧
     (draw_range (adjust_scroll 0 0 (available_lines 30)) (available_lines 30) 1).1 ≤ 0 ∧
     (0 : Int) < (draw_range (adjust_scroll 0 0 (available_lines 30)) (available_lines 30) 1).2 ∧
     (draw_range (adjust_scroll 0 0 (available_lines 30)) (available_lines 30) 1).2 =
       min (adjust_scroll 0 0 (available_lines 30) + available_lines 30) ((1 : Nat) : Int)) :=
  ⟨by decide, by decide,
   c9_render_cursor_visible 30 0 0 1 (by decide) (by decide)⟩

/-- Claim C1 (code-bug evaluation): pressing Back with an empty history from
/tmp/d/sub while the process working directory is /home/user adopts /home —
realpath("..") is resolved against the process working directory, which the
session never synchronizes with the current path — instead of /tmp/d, the
parent of the current path required by the specification and by the code's
own comment and usage text. -/
theorem c1_back_fallback_resolves_process_cwd :
    (back_command home_user state_at_tmp_d_sub).current_path =
      [[104, 111, 109, 101]] ∧
    (back_command home_user state_at_tmp_d_sub).current_path ≠
      [[116, 109, 112], [100]] := by decide

/-- Claim C2 counterexample: with the cursor at index 4 of a five-entry
snapshot, reloading against a listing of two entries yields a non-empty
snapshot of length 2 ≤ 4 but leaves the cursor at 0, not at new length
minus one = 1 as the claim states. -/
theorem c2_reload_clamp_counterexample :
    state_cursor4_of5.entries.length = 5 ∧
    state_cursor4_of5.cursor_pos = 4 ∧
    (load_directory shrunk_listing state_cursor4_of5).entries.length = 2 ∧
    (load_directory shrunk_listing state_cursor4_of5).entries ≠ [] ∧
    (load_directory shrunk_listing state_cursor4_of5).cursor_pos = 0 ∧
    ¬ (load_directory shrunk_listing state_cursor4_of5).cursor_pos = 2 - 1 := by
  decide

/-- Claim C2 (amended): every reload resets the cursor and the scroll offset
to 0; when the reloaded snapshot is non-empty, cursor 0 is in range, so a
snapshot that shrinks below the old cursor leaves the cursor valid at
index 0 rather than clamped to new length minus one. -/
theorem c2_reload_resets_cursor_to_zero (st : interactive_state_t)
    (listing : List dirent_t)
    (hne : (load_directory listing st).entries ≠ []) :
    (load_directory listing st).cursor_pos = 0 ∧
    (load_directory listing st).scroll_offset = 0 ∧
    0 ≤ (load_directory listing st).cursor_pos ∧
    (load_directory listing st).cursor_pos <
      ((load_directory listing st).entries.length : Int) := by
  refine ⟨rfl, rfl, le_refl 0, ?_⟩
  have hpos : 0 < (load_directory listing st).entries.length :=
    List.length_pos.mpr hne
  have hzero : (load_directory listing st).cursor_pos = 0 := rfl
  rw [hzero]
  exact_mod_cast hpos

/-- Witness for Claim C2 (amended): the five-entry state reloaded against
the two-entry listing. -/
theorem c2_reload_resets_cursor_to_zero_witness :
    (load_directory shrunk_listing state_cursor4_of5).entries ≠ [] ∧
    ((load_directory shrunk_listing state_cursor4_of5).cursor_pos = 0 ∧
     (load_directory shrunk_listing state_cursor4_of5).scroll_offset = 0 ∧
     0 ≤ (load_directory shrunk_listing state_cursor4_of5).cursor_pos ∧
     (load_directory shrunk_listing state_cursor4_of5).cursor_pos <
       ((load_directory shrunk_listing state_cursor4_of5).entries.length : Int)) :=
  ⟨by decide,
   c2_reload_resets_cursor_to_zero state_cursor4_of5 shrunk_listing (by decide)⟩

/-- Claim C3 counterexample: when the start path resolves but a realloc in
list_push fails during the session, the process exits via exit(EXIT_FAILURE)
with raw mode and the alternate screen buffer both still active. -/
theorem c3_alloc_failure_leaves_terminal_raw :
    raw_mode_active (session_term_trace true false) = true ∧
    alt_screen_active (session_term_trace true false) = true := by decide

/-- Claim C3 (amended): on the quit path raw mode and the alternate screen
buffer are released exactly once, and on a fatal start-path resolution
failure the session acquires neither, so no such execution ends with them
active; only the allocation-failure abort escapes the guarantee. -/
theorem c3_terminal_released_on_quit_and_fatal_paths :
    raw_mode_active (session_term_trace true true) = false ∧
    alt_screen_active (session_term_trace true true) = false ∧
    (session_term_trace true true).count term_event.raw_off = 1 ∧
    (session_term_trace true true).count term_event.alt_off = 1 ∧
    session_term_trace false true = [] ∧
    session_term_trace false false = [] := by decide

end MExplorer
